import Mathlib

/-!
Shallow embedding of the vizarr grid layer (GridLayer source file):
geometry (cell bounds, viewport intersection, per-level window
computation), grid context construction, concurrent tile loading,
post-fetch shape validation, the staleness-gated completion handlers,
resolution-level selection and screen-pick annotation.

Numbers: JS floating-point coordinates are modelled as rationals (ℚ);
pyramid index ranges as integers (ℤ); array shapes and counts as ℕ.
Asynchronous completion is modelled by pure state-transformer functions
applied to the shared layer state observed at completion time; fallible
code (JS assert / thrown TypeError) is modelled with Except.
-/

/-- Axis-aligned rectangle in world coordinates, field order as in the
source type CellBounds. -/
structure CellBounds where
  left : ℚ
  right : ℚ
  top : ℚ
  bottom : ℚ
deriving DecidableEq, Repr

/-- Deck-style bounds tuple [left, bottom, right, top]. -/
def DeckBounds := ℚ × ℚ × ℚ × ℚ
deriving DecidableEq, Repr

/-- Width/height pair; array shapes are natural numbers. -/
structure Dimensions where
  width : ℕ
  height : ℕ
deriving DecidableEq, Repr

/-- Projected on-screen size of a cell (floating point in the source). -/
structure ScreenSize where
  width : ℚ
  height : ℚ
deriving DecidableEq, Repr

/-- Pixel source: axis labels, per-axis extents and a dtype tag
(the external raster contract of the source file). -/
structure ZarrPixelSource where
  labels : List String
  shape : List ℕ
  dtype : String
deriving DecidableEq, Repr

/-- One grid position: pyramid sources, row, column's index and name. -/
structure GridLoader where
  sources : List ZarrPixelSource
  row : ℕ
  col : ℕ
  name : String
deriving DecidableEq, Repr

/-- A visible cell: its loader, full cell bounds and clipped visible bounds. -/
structure VisibleGridCell where
  loader : GridLoader
  cellBounds : CellBounds
  viewportBounds : CellBounds
deriving DecidableEq, Repr

/-- Per-render-cycle snapshot: full cell size, spacer, visible cells. -/
structure GridContext where
  fullSize : Dimensions
  spacer : ℚ
  visibleCells : List VisibleGridCell
deriving DecidableEq, Repr

/-- Index-range window passed to a raster fetch: x and y ranges. -/
structure RasterWindow where
  x : ℤ × ℤ
  y : ℤ × ℤ
deriving DecidableEq, Repr

/-- One fetched raster tile: a data buffer and its width/height.
A SupportedTypedArray buffer is modelled as a list of naturals. -/
structure RasterTile where
  data : List ℕ
  width : ℕ
  height : ℕ
deriving DecidableEq, Repr

/-- The data part of a fetched grid entry: per-selection buffers plus the
reported width/height. -/
structure GridData where
  data : List (List ℕ)
  width : ℕ
  height : ℕ
deriving DecidableEq, Repr

/-- Result of loading one visible cell at one level (GridDataEntry in the
source: the loader fields spread together with bounds, coverage flag,
resolved source, source index and tile data). -/
structure GridDataEntry where
  sources : List ZarrPixelSource
  row : ℕ
  col : ℕ
  name : String
  bounds : DeckBounds
  coversWholeCell : Bool
  source : ZarrPixelSource
  sourceIndex : ℕ
  data : GridData
deriving DecidableEq, Repr

/-- The props consumed by the grid layer that the embedded functions read. -/
structure GridLayerProps where
  loaders : List GridLoader
  rows : ℕ
  columns : ℕ
  rowLabels : Option (List String)
  columnLabels : Option (List String)
  spacer : Option ℚ
  text : Bool
  concurrency : Option ℕ
  selections : List (List ℤ)
deriving DecidableEq, Repr

/-- Shared render state committed by completion handlers. -/
structure SharedLayerState where
  gridData : List GridDataEntry
  fullWidth : ℕ
  fullHeight : ℕ
  resolutionLevel : ℕ
deriving DecidableEq, Repr

/-- Minimum screen pixels per data pixel before a finer level is chosen. -/
def MIN_PIXELS_PER_DATA_PIXEL : ℚ := 1 / 2

/-- Clamp, mirroring the two-branch JS helper. -/
def clamp (value lo hi : ℚ) : ℚ :=
  if value < lo then lo
  else if value > hi then hi
  else value

/-- World bounds of the grid cell at the loader's row/column. -/
def getCellBounds (loader : GridLoader) (width height spacer : ℚ) : CellBounds :=
  let left := (loader.col : ℚ) * (width + spacer)
  let top := (loader.row : ℚ) * (height + spacer)
  { left := left, right := left + width, top := top, bottom := top + height }

/-- Reorder cell bounds into the deck-style [left, bottom, right, top]. -/
def toDeckBounds (bounds : CellBounds) : DeckBounds :=
  (bounds.left, bounds.bottom, bounds.right, bounds.top)

/-- Overlap rectangle of two bounds, or none when the overlap is empty or
degenerate (right ≤ left or bottom ≤ top). -/
def intersectBounds (a b : CellBounds) : Option CellBounds :=
  let left := max a.left b.left
  let right := min a.right b.right
  let top := max a.top b.top
  let bottom := min a.bottom b.bottom
  if right ≤ left ∨ bottom ≤ top then none
  else some { left := left, right := right, top := top, bottom := bottom }

/-- Every cell that has sources, with visible bounds equal to full bounds
(viewport-agnostic paint). Mirrors getAllGridCells. -/
def getAllGridCells (loaders : List GridLoader) (cellSize : Dimensions) (spacer : ℚ) :
    List VisibleGridCell :=
  if cellSize.width = 0 ∨ cellSize.height = 0 then []
  else
    (loaders.filter fun loader => !loader.sources.isEmpty).map fun loader =>
      let cellBounds := getCellBounds loader (cellSize.width : ℚ) (cellSize.height : ℚ) spacer
      { loader := loader, cellBounds := cellBounds, viewportBounds := cellBounds }

/-- Cells whose bounds intersect the viewport's world bounds, annotated with
the clipped visible bounds. The viewport argument is the world-space
rectangle produced by getViewportBounds (corner unprojection and inverse
model transform are the external viewport contract). -/
def getVisibleGridCells (loaders : List GridLoader) (viewportBounds : CellBounds)
    (cellSize : Dimensions) (spacer : ℚ) : List VisibleGridCell :=
  if cellSize.width = 0 ∨ cellSize.height = 0 then []
  else
    loaders.filterMap fun loader =>
      if loader.sources.isEmpty then none
      else
        let cellBounds := getCellBounds loader (cellSize.width : ℚ) (cellSize.height : ℚ) spacer
        match intersectBounds cellBounds viewportBounds with
        | some inter =>
            some { loader := loader, cellBounds := cellBounds, viewportBounds := inter }
        | none => none

/-- Input record of computeWindowForSource. -/
structure WindowOpts where
  viewportBounds : CellBounds
  cellBounds : CellBounds
  fullSize : Dimensions
  levelSize : Dimensions
deriving DecidableEq, Repr

/-- Result record of computeWindowForSource. -/
structure WindowResult where
  window : Option RasterWindow
  renderBounds : CellBounds
  coversWholeCell : Bool
deriving DecidableEq, Repr

/-- Width of one level pixel in world units (fullSize.width / levelWidth). -/
def pixelSizeX (o : WindowOpts) : ℚ := (o.fullSize.width : ℚ) / (o.levelSize.width : ℚ)

/-- Height of one level pixel in world units (fullSize.height / levelHeight). -/
def pixelSizeY (o : WindowOpts) : ℚ := (o.fullSize.height : ℚ) / (o.levelSize.height : ℚ)

/-- Visible slice's left edge in the cell's local coordinates, clamped. -/
def localLeft (o : WindowOpts) : ℚ :=
  clamp (o.viewportBounds.left - o.cellBounds.left) 0 (o.fullSize.width : ℚ)

/-- Visible slice's right edge in the cell's local coordinates, clamped. -/
def localRight (o : WindowOpts) : ℚ :=
  clamp (o.viewportBounds.right - o.cellBounds.left) 0 (o.fullSize.width : ℚ)

/-- Visible slice's top edge in the cell's local coordinates, clamped. -/
def localTop (o : WindowOpts) : ℚ :=
  clamp (o.viewportBounds.top - o.cellBounds.top) 0 (o.fullSize.height : ℚ)

/-- Visible slice's bottom edge in the cell's local coordinates, clamped. -/
def localBottom (o : WindowOpts) : ℚ :=
  clamp (o.viewportBounds.bottom - o.cellBounds.top) 0 (o.fullSize.height : ℚ)

/-- Index where the window starts on the x axis. -/
def windowXStart (o : WindowOpts) : ℤ := max 0 ⌊localLeft o / pixelSizeX o⌋

/-- Index one past the end of the window on the x axis. -/
def windowXEnd (o : WindowOpts) : ℤ :=
  min (o.levelSize.width : ℤ) (max (windowXStart o + 1) ⌈localRight o / pixelSizeX o⌉)

/-- Index where the window starts on the y axis. -/
def windowYStart (o : WindowOpts) : ℤ := max 0 ⌊localTop o / pixelSizeY o⌋

/-- Index one past the end of the window on the y axis. -/
def windowYEnd (o : WindowOpts) : ℤ :=
  min (o.levelSize.height : ℤ) (max (windowYStart o + 1) ⌈localBottom o / pixelSizeY o⌉)

/-- True exactly when the computed window spans the full level extent. -/
def coversWholeCellFlag (o : WindowOpts) : Bool :=
  decide (windowXStart o = 0 ∧ windowXEnd o = (o.levelSize.width : ℤ) ∧
    windowYStart o = 0 ∧ windowYEnd o = (o.levelSize.height : ℤ))

/-- Maps the visible sub-rectangle of a cell into index ranges of a pyramid
level, returning the optional fetch window, the world-space render bounds
and the whole-cell coverage flag. Mirrors computeWindowForSource. -/
def computeWindowForSource (o : WindowOpts) : WindowResult :=
  if o.levelSize.width = 0 ∨ o.levelSize.height = 0 then
    { window := none, renderBounds := o.cellBounds, coversWholeCell := true }
  else
    let covers := coversWholeCellFlag o
    { window :=
        if covers then none
        else some { x := (windowXStart o, windowXEnd o), y := (windowYStart o, windowYEnd o) },
      renderBounds :=
        if covers then o.cellBounds
        else
          { left := o.cellBounds.left + (windowXStart o : ℚ) * pixelSizeX o,
            right := o.cellBounds.left + (windowXEnd o : ℚ) * pixelSizeX o,
            top := o.cellBounds.top + (windowYStart o : ℚ) * pixelSizeY o,
            bottom := o.cellBounds.top + (windowYEnd o : ℚ) * pixelSizeY o },
      coversWholeCell := covers }

/-- Width/height of a pixel source read off its shape at the x/y axis
labels; the missing-axis assert is modelled as an Except error. -/
def getSourceDimensions (source : ZarrPixelSource) : Except String Dimensions :=
  if source.labels.contains "x" ∧ source.labels.contains "y" then
    .ok { width := source.shape.getD (source.labels.indexOf "x") 0,
          height := source.shape.getD (source.labels.indexOf "y") 0 }
  else .error "Expected pixel source with x/y axes"

/-- Placeholder source used only to express partial list indexing totally;
the guarded callers never reach it. -/
def emptySource : ZarrPixelSource := { labels := [], shape := [], dtype := "" }

/-- Builds the per-cycle grid context: full cell size from the first loader
with sources, soft-failing (ok none) on no data or a degenerate base size.
When a viewport world rectangle is given only intersecting cells are kept,
otherwise all non-empty cells. Mirrors buildGridContext. -/
def buildGridContext (props : GridLayerProps) (viewport : Option CellBounds) :
    Except String (Option GridContext) :=
  let spacer := props.spacer.getD 0
  if props.loaders.isEmpty then .ok none
  else
    match props.loaders.find? (fun loader => !loader.sources.isEmpty) with
    | none => .ok none
    | some baseLoader =>
        match getSourceDimensions (baseLoader.sources.getD 0 emptySource) with
        | .error e => .error e
        | .ok fullSize =>
            if fullSize.width = 0 ∨ fullSize.height = 0 then .ok none
            else
              let visibleCells :=
                match viewport with
                | some viewportBounds =>
                    getVisibleGridCells props.loaders viewportBounds fullSize spacer
                | none => getAllGridCells props.loaders fullSize spacer
              .ok (some { fullSize := fullSize, spacer := spacer, visibleCells := visibleCells })

/-- Effective per-cell concurrency for the fetch fan-out: none means an
unbounded fan-out. JS tests the budget for falsiness, so a configured
budget of 0 also yields an unbounded fan-out. Math.ceil on a quotient of
naturals is the integer ceiling. Mirrors getEffectiveConcurrency. -/
def getEffectiveConcurrency (concurrency : Option ℕ) (selectionCount : ℕ) : Option ℕ :=
  match concurrency with
  | none => none
  | some c =>
      if c = 0 then none
      else if selectionCount = 0 then some c
      else some (Int.toNat (max 1 ⌈(c : ℚ) / (selectionCount : ℚ)⌉))

/-- Loads one visible cell at one level: clamps the level to the cell's
pyramid depth, computes the window, fetches one tile per channel selection
(getRaster is the external raster contract) and assembles the entry; the
width/height are taken from the first tile, 0 when there is none. The
missing-sources assert is an Except error. Mirrors loadVisibleCell. -/
def loadVisibleCell (cell : VisibleGridCell) (level : ℕ) (selections : List (List ℤ))
    (context : GridContext)
    (getRaster : ZarrPixelSource → List ℤ → Option RasterWindow → RasterTile) :
    Except String GridDataEntry :=
  let loader := cell.loader
  if loader.sources.isEmpty then .error "Grid loader is missing pixel sources"
  else
    let sourceIndex := min level (loader.sources.length - 1)
    let source := loader.sources.getD sourceIndex emptySource
    match getSourceDimensions source with
    | .error e => .error e
    | .ok levelSize =>
        let result := computeWindowForSource
          { viewportBounds := cell.viewportBounds, cellBounds := cell.cellBounds,
            fullSize := context.fullSize, levelSize := levelSize }
        let tiles := selections.map fun selection => getRaster source selection result.window
        let width := (tiles.head?.map (·.width)).getD 0
        let height := (tiles.head?.map (·.height)).getD 0
        .ok { sources := loader.sources, row := loader.row, col := loader.col,
              name := loader.name, bounds := toDeckBounds result.renderBounds,
              coversWholeCell := result.coversWholeCell, source := source,
              sourceIndex := sourceIndex,
              data := { data := tiles.map (·.data), width := width, height := height } }

/-- Loads every visible cell of the context at the given level. The p-map
fan-out limit getEffectiveConcurrency concurrency selections.length is a
backpressure device and does not change the resulting list. Mirrors
refreshGridData. -/
def refreshGridData (context : GridContext) (level : ℕ) (selections : List (List ℤ))
    (getRaster : ZarrPixelSource → List ℤ → Option RasterWindow → RasterTile) :
    Except String (List GridDataEntry) :=
  if context.visibleCells.isEmpty then .ok []
  else context.visibleCells.mapM fun cell => loadVisibleCell cell level selections context getRaster

/-- Checks that every entry reports the same width/height as the first one,
returning that shape; a mismatch is the thrown assert "Grid data is not
same shape." and the empty list models the JS TypeError on destructuring
an empty batch (the caller guards on a non-empty batch). Mirrors
validateWidthHeight. -/
def validateWidthHeight (data : List GridDataEntry) : Except String Dimensions :=
  match data with
  | [] => .error "Cannot read properties of undefined"
  | first :: _ =>
      if data.all fun entry =>
          entry.data.width = first.data.width && entry.data.height = first.data.height then
        .ok { width := first.data.width, height := first.data.height }
      else .error "Grid data is not same shape."

/-- The validation step of the completion handler: only when the batch is
non-empty and every entry covers its whole cell is validateWidthHeight
run. Mirrors the shouldValidate guard in GridLayer refreshAndSetState. -/
def refreshValidation (gridData : List GridDataEntry) : Except String Unit :=
  if gridData.length > 0 ∧ gridData.all (·.coversWholeCell) then
    (validateWidthHeight gridData).map fun _ => ()
  else .ok ()

/-- The rejection handler of a fetch batch issued for the given level,
applied to the shared state observed at completion time: stale batches
(active level moved on) leave the state untouched, otherwise the grid data
is blanked. Mirrors the catch branch of refreshAndSetState. -/
def refreshOnReject (state : SharedLayerState) (level : ℕ) : SharedLayerState :=
  if state.resolutionLevel ≠ level then state
  else { state with gridData := [] }

/-- The resolution handler of a fetch batch issued for the given level,
applied to the shared state observed at completion time: stale batches
leave the state untouched; a validation throw falls to the catch branch;
otherwise the batch and the context's full size are committed. Mirrors the
then branch of refreshAndSetState. -/
def refreshOnResolve (state : SharedLayerState) (level : ℕ) (fullSize : Dimensions)
    (gridData : List GridDataEntry) : SharedLayerState :=
  if state.resolutionLevel ≠ level then state
  else
    match refreshValidation gridData with
    | .error _ => refreshOnReject state level
    | .ok _ =>
        { state with gridData := gridData,
                     fullWidth := fullSize.width, fullHeight := fullSize.height }

/-- Deepest level every cell of the grid can serve:
min over loaders of sources.length, minus one. Mirrors getMaxValidLevel. -/
def getMaxValidLevel (loaders : List GridLoader) : ℕ :=
  match loaders with
  | [] => 0
  | l :: ls => (ls.foldl (fun acc loader => Nat.min acc loader.sources.length)
      l.sources.length) - 1

/-- Does a level qualify on screen: nonzero level size and at least
MIN_PIXELS_PER_DATA_PIXEL screen pixels per data pixel on both axes. -/
def levelQualifies (screenSize : ScreenSize) (d : Dimensions) : Bool :=
  decide (d.width ≠ 0 ∧ d.height ≠ 0 ∧
    MIN_PIXELS_PER_DATA_PIXEL ≤
      min (screenSize.width / (d.width : ℚ)) (screenSize.height / (d.height : ℚ)))

/-- Index of the first qualifying level, scanning from level 0. -/
def firstQualifying (p : Dimensions → Bool) : List Dimensions → Option ℕ
  | [] => none
  | d :: rest => if p d then some 0 else (firstQualifying p rest).map (· + 1)

/-- The loop of pickResolutionLevel: first qualifying level, or the deepest
listed level when none qualifies. -/
def pickFromDims (dims : List Dimensions) (screenSize : ScreenSize) : ℕ :=
  (firstQualifying (levelQualifies screenSize) dims).getD (dims.length - 1)

/-- Resolution-level selection: degenerate pyramids pin level 0, a missing
screen projection retains the previous level, otherwise the coarsest
qualifying level among the first maxLevel+1 per-level dimensions is
chosen. Mirrors GridLayer pickResolutionLevel, with the projected cell
screen size passed in (projection is the external viewport contract). -/
def pickResolutionLevel (maxLevel : ℕ) (dims : List Dimensions)
    (screenSize : Option ScreenSize) (prevLevel : ℕ) : ℕ :=
  if maxLevel = 0 then 0
  else
    let sliced := dims.take (maxLevel + 1)
    if sliced.length ≤ 1 then 0
    else
      match screenSize with
      | none => prevLevel
      | some s => pickFromDims sliced s

/-- Picking info record: the resolved world coordinate and the optional
grid annotations added by getPickingInfo. -/
structure PickingInfo where
  coordinate : Option (ℚ × ℚ)
  gridCoord : Option (ℤ × ℤ)
  gridLabels : Option (Option String × Option String)
deriving DecidableEq, Repr

/-- Grid row of a pick's world y coordinate:
floor(y / (fullHeight + spacer)), with the spacer read from the props and
defaulting to 0. -/
def pickRow (props : GridLayerProps) (fullHeight : ℕ) (y : ℚ) : ℤ :=
  ⌊y / ((fullHeight : ℚ) + props.spacer.getD 0)⌋

/-- Grid column of a pick's world x coordinate:
floor(x / (fullWidth + spacer)). -/
def pickColumn (props : GridLayerProps) (fullWidth : ℕ) (x : ℚ) : ℤ :=
  ⌊x / ((fullWidth : ℚ) + props.spacer.getD 0)⌋

/-- Annotates a pick with its grid row/column and display labels; picks
without a coordinate, with an uninitialized (zero) cell size, or mapping
outside the declared rows/columns bounds are returned unchanged. Mirrors
GridLayer getPickingInfo. -/
def getPickingInfo (props : GridLayerProps) (fullWidth fullHeight : ℕ)
    (info : PickingInfo) : PickingInfo :=
  match info.coordinate with
  | none => info
  | some (x, y) =>
      if fullWidth = 0 ∨ fullHeight = 0 then info
      else
        if pickRow props fullHeight y < 0 ∨ pickColumn props fullWidth x < 0 ∨
            (props.rows : ℤ) ≤ pickRow props fullHeight y ∨
            (props.columns : ℤ) ≤ pickColumn props fullWidth x then
          info
        else
          { info with
            gridCoord := some (pickRow props fullHeight y, pickColumn props fullWidth x),
            gridLabels := some
              (props.rowLabels.bind fun ls => ls.get? (pickRow props fullHeight y).toNat,
               props.columnLabels.bind fun ls => ls.get? (pickColumn props fullWidth x).toNat) }

/-- Integer ceiling of a quotient of naturals, expressed with natural
division. -/
lemma ceil_cast_div_eq (c n : ℕ) (hn : n ≠ 0) :
    ⌈(c : ℚ) / (n : ℚ)⌉ = (((c + n - 1) / n : ℕ) : ℤ) := by
  have hn0 : 0 < n := Nat.pos_of_ne_zero hn
  have hnq : (0 : ℚ) < (n : ℚ) := by exact_mod_cast hn0
  have hdm := Nat.div_add_mod (c + n - 1) n
  have hml := Nat.mod_lt (c + n - 1) hn0
  set q : ℕ := (c + n - 1) / n with hq
  have h1 : c ≤ n * q := by omega
  have h2 : n * q < c + n := by omega
  have h1' : (c : ℤ) ≤ (n : ℤ) * (q : ℤ) := by exact_mod_cast h1
  have h2' : (n : ℤ) * (q : ℤ) < (c : ℤ) + (n : ℤ) := by exact_mod_cast h2
  rw [Int.ceil_eq_iff]
  constructor
  · rw [lt_div_iff₀ hnq]
    have hz : ((q : ℤ) - 1) * n < c := by
      have e1 : ((q : ℤ) - 1) * (n : ℤ) = (n : ℤ) * (q : ℤ) - (n : ℤ) := by ring
      rw [e1]; linarith
    calc ((q : ℚ) - 1) * n = ((((q : ℤ) - 1) * n : ℤ) : ℚ) := by push_cast; ring
    _ < c := by exact_mod_cast hz
  · rw [div_le_iff₀ hnq]
    have hz : (c : ℤ) ≤ (q : ℤ) * (n : ℤ) := by
      have e2 : (q : ℤ) * (n : ℤ) = (n : ℤ) * (q : ℤ) := by ring
      rw [e2]; exact h1'
    calc (c : ℚ) = ((c : ℤ) : ℚ) := by push_cast; ring
    _ ≤ (((q : ℤ) * (n : ℤ) : ℤ) : ℚ) := by exact_mod_cast hz
    _ = (q : ℚ) * n := by push_cast; ring

/-- C1: a completed fetch batch issued for a level that is no longer the
active resolution level leaves the shared render state untouched, whether
the batch resolved or was rejected. -/
theorem staleBatch_never_mutates_state (state : SharedLayerState) (level : ℕ)
    (fullSize : Dimensions) (gridData : List GridDataEntry)
    (h : state.resolutionLevel ≠ level) :
    refreshOnResolve state level fullSize gridData = state ∧
    refreshOnReject state level = state := by
  constructor
  · simp [refreshOnResolve, h]
  · simp [refreshOnReject, h]

/-- Witness for C1 at a concrete stale state: the active level is 2, the
batch was issued for level 1. -/
theorem staleBatch_never_mutates_state_witness :
    refreshOnResolve { gridData := [], fullWidth := 7, fullHeight := 7, resolutionLevel := 2 } 1
        { width := 3, height := 3 } [] =
      { gridData := [], fullWidth := 7, fullHeight := 7, resolutionLevel := 2 } ∧
    refreshOnReject { gridData := [], fullWidth := 7, fullHeight := 7, resolutionLevel := 2 } 1 =
      { gridData := [], fullWidth := 7, fullHeight := 7, resolutionLevel := 2 } :=
  staleBatch_never_mutates_state _ 1 _ [] (by decide)

/-- C9: a degenerate pyramid-level size short-circuits the window
computation: no window, render bounds equal to the cell bounds, the
coverage flag set, and the per-axis divisions never reached. -/
theorem degenerateLevel_shortCircuits (o : WindowOpts)
    (h : o.levelSize.width = 0 ∨ o.levelSize.height = 0) :
    computeWindowForSource o =
      { window := none, renderBounds := o.cellBounds, coversWholeCell := true } := by
  simp only [computeWindowForSource, if_pos h]

/-- Witness for C9 at a concrete zero-width level size. -/
theorem degenerateLevel_shortCircuits_witness :
    computeWindowForSource
        { viewportBounds := { left := 0, right := 1, top := 0, bottom := 1 },
          cellBounds := { left := 0, right := 9, top := 0, bottom := 9 },
          fullSize := { width := 9, height := 9 },
          levelSize := { width := 0, height := 4 } } =
      { window := none,
        renderBounds := { left := 0, right := 9, top := 0, bottom := 9 },
        coversWholeCell := true } :=
  degenerateLevel_shortCircuits _ (Or.inl rfl)

/-- C5: with a configured nonzero budget C and a non-empty selection list
the effective per-cell concurrency is max(1, ceil(C / numSelections)),
an unconfigured budget yields an unbounded fan-out, and in particular
budget 10 with 4 selections yields 3. -/
theorem effectiveConcurrency_spec (c n : ℕ) (hc : c ≠ 0) (hn : n ≠ 0) :
    getEffectiveConcurrency (some c) n = some (max 1 ((c + n - 1) / n)) ∧
    getEffectiveConcurrency none n = none ∧
    getEffectiveConcurrency (some 10) 4 = some 3 := by
  refine ⟨?_, rfl, ?_⟩
  · simp only [getEffectiveConcurrency, if_neg hc, if_neg hn]
    rw [ceil_cast_div_eq c n hn]
    congr 1
    omega
  · simp only [getEffectiveConcurrency]
    rw [show ((10 : ℕ) : ℚ) / ((4 : ℕ) : ℚ) = (10 : ℚ) / (4 : ℚ) by norm_num]
    rw [show ⌈(10 : ℚ) / (4 : ℚ)⌉ = 3 by rw [Int.ceil_eq_iff]; norm_num]
    norm_num
    rfl

/-- Witness for C5 at budget 10 and 4 selections. -/
theorem effectiveConcurrency_spec_witness :
    getEffectiveConcurrency (some 10) 4 = some (max 1 ((10 + 4 - 1) / 4)) ∧
    getEffectiveConcurrency none 4 = none ∧
    getEffectiveConcurrency (some 10) 4 = some 3 :=
  effectiveConcurrency_spec 10 4 (by decide) (by decide)

/-- C3: with a nondegenerate level size the coverage flag is true exactly
when the computed index ranges span the full level extent on both axes,
and a covering result carries no window object and leaves the cell bounds
untouched as render bounds. -/
theorem coversWholeCell_spec (o : WindowOpts)
    (hw : o.levelSize.width ≠ 0) (hh : o.levelSize.height ≠ 0) :
    ((computeWindowForSource o).coversWholeCell = true ↔
      (windowXStart o = 0 ∧ windowXEnd o = (o.levelSize.width : ℤ) ∧
       windowYStart o = 0 ∧ windowYEnd o = (o.levelSize.height : ℤ))) ∧
    ((computeWindowForSource o).coversWholeCell = true →
      (computeWindowForSource o).window = none ∧
      (computeWindowForSource o).renderBounds = o.cellBounds) := by
  have hcond : ¬ (o.levelSize.width = 0 ∨ o.levelSize.height = 0) := by tauto
  constructor
  · simp [computeWindowForSource, coversWholeCellFlag, hcond]
  · intro hcov
    simp only [computeWindowForSource, if_neg hcond] at hcov ⊢
    simp [hcov]

/-- Witness for C3: a viewport slice exactly equal to the cell bounds fully
covers a 10 by 10 level of a 100 by 100 cell. -/
theorem coversWholeCell_spec_witness :
    ((computeWindowForSource
        { viewportBounds := { left := 0, right := 100, top := 0, bottom := 100 },
          cellBounds := { left := 0, right := 100, top := 0, bottom := 100 },
          fullSize := { width := 100, height := 100 },
          levelSize := { width := 10, height := 10 } }).coversWholeCell = true ↔
      (windowXStart
        { viewportBounds := { left := 0, right := 100, top := 0, bottom := 100 },
          cellBounds := { left := 0, right := 100, top := 0, bottom := 100 },
          fullSize := { width := 100, height := 100 },
          levelSize := { width := 10, height := 10 } } = 0 ∧
       windowXEnd
        { viewportBounds := { left := 0, right := 100, top := 0, bottom := 100 },
          cellBounds := { left := 0, right := 100, top := 0, bottom := 100 },
          fullSize := { width := 100, height := 100 },
          levelSize := { width := 10, height := 10 } } = ((10 : ℕ) : ℤ) ∧
       windowYStart
        { viewportBounds := { left := 0, right := 100, top := 0, bottom := 100 },
          cellBounds := { left := 0, right := 100, top := 0, bottom := 100 },
          fullSize := { width := 100, height := 100 },
          levelSize := { width := 10, height := 10 } } = 0 ∧
       windowYEnd
        { viewportBounds := { left := 0, right := 100, top := 0, bottom := 100 },
          cellBounds := { left := 0, right := 100, top := 0, bottom := 100 },
          fullSize := { width := 100, height := 100 },
          levelSize := { width := 10, height := 10 } } = ((10 : ℕ) : ℤ))) ∧
    ((computeWindowForSource
        { viewportBounds := { left := 0, right := 100, top := 0, bottom := 100 },
          cellBounds := { left := 0, right := 100, top := 0, bottom := 100 },
          fullSize := { width := 100, height := 100 },
          levelSize := { width := 10, height := 10 } }).coversWholeCell = true →
      (computeWindowForSource
        { viewportBounds := { left := 0, right := 100, top := 0, bottom := 100 },
          cellBounds := { left := 0, right := 100, top := 0, bottom := 100 },
          fullSize := { width := 100, height := 100 },
          levelSize := { width := 10, height := 10 } }).window = none ∧
      (computeWindowForSource
        { viewportBounds := { left := 0, right := 100, top := 0, bottom := 100 },
          cellBounds := { left := 0, right := 100, top := 0, bottom := 100 },
          fullSize := { width := 100, height := 100 },
          levelSize := { width := 10, height := 10 } }).renderBounds =
        { left := 0, right := 100, top := 0, bottom := 100 }) :=
  coversWholeCell_spec _ (by decide) (by decide)

/-- Input where the visible slice degenerates to the cell's right edge:
the viewport lies entirely at and beyond the right edge of the cell. -/
def windowEdgeCE : WindowOpts :=
  { viewportBounds := { left := 100, right := 120, top := 0, bottom := 50 },
    cellBounds := { left := 0, right := 100, top := 0, bottom := 100 },
    fullSize := { width := 100, height := 100 },
    levelSize := { width := 10, height := 10 } }

/-- C2 counterexample: at a slice degenerated to the cell's right edge the
level size is positive yet the returned x range is empty
(xStart = xEnd = levelWidth), contradicting the claim that the window is
always non-empty. -/
theorem windowNonempty_counterexample :
    0 < windowEdgeCE.levelSize.width ∧ 0 < windowEdgeCE.levelSize.height ∧
    windowXStart windowEdgeCE = 10 ∧ windowXEnd windowEdgeCE = 10 ∧
    (computeWindowForSource windowEdgeCE).window = some { x := (10, 10), y := (0, 5) } := by
  have hxs : windowXStart windowEdgeCE = 10 := by
    norm_num [windowXStart, localLeft, pixelSizeX, clamp, windowEdgeCE]
  have hxe : windowXEnd windowEdgeCE = 10 := by
    norm_num [windowXEnd, windowXStart, localRight, localLeft, pixelSizeX, clamp, windowEdgeCE]
  have hys : windowYStart windowEdgeCE = 0 := by
    norm_num [windowYStart, localTop, pixelSizeY, clamp, windowEdgeCE]
  have hye : windowYEnd windowEdgeCE = 5 := by
    norm_num [windowYEnd, windowYStart, localBottom, localTop, pixelSizeY, clamp, windowEdgeCE]
  have hcond : ¬ (windowEdgeCE.levelSize.width = 0 ∨ windowEdgeCE.levelSize.height = 0) := by
    decide
  have hflag : coversWholeCellFlag windowEdgeCE = false := by
    simp only [coversWholeCellFlag, hxs, hxe, hys, hye]
    decide
  refine ⟨by decide, by decide, hxs, hxe, ?_⟩
  simp [computeWindowForSource, if_neg hcond, hflag, hxs, hxe, hys, hye]

/-- Clamping into [0, hi] keeps a value strictly below hi strictly below hi. -/
lemma clamp_lt_hi {v hi : ℚ} (h0 : 0 < hi) (hv : v < hi) : clamp v 0 hi < hi := by
  unfold clamp
  split_ifs with h1 h2
  · exact h0
  · linarith
  · exact hv

/-- C2 amended: with positive level and full sizes the window is non-empty
on each axis whose visible slice starts strictly before the cell's
far edge; a slice degenerated exactly to the right or bottom edge yields
an empty range on that axis (see the counterexample). -/
theorem windowNonempty_amended (o : WindowOpts)
    (hlw : o.levelSize.width ≠ 0) (hlh : o.levelSize.height ≠ 0)
    (hfw : o.fullSize.width ≠ 0) (hfh : o.fullSize.height ≠ 0)
    (hx : o.viewportBounds.left - o.cellBounds.left < (o.fullSize.width : ℚ))
    (hy : o.viewportBounds.top - o.cellBounds.top < (o.fullSize.height : ℚ)) :
    windowXStart o < windowXEnd o ∧ windowYStart o < windowYEnd o := by
  constructor
  · have hfwq : (0 : ℚ) < (o.fullSize.width : ℚ) := by
      exact_mod_cast Nat.pos_of_ne_zero hfw
    have hlwq : (0 : ℚ) < (o.levelSize.width : ℚ) := by
      exact_mod_cast Nat.pos_of_ne_zero hlw
    have hpx : 0 < pixelSizeX o := div_pos hfwq hlwq
    have hll : localLeft o < (o.fullSize.width : ℚ) := clamp_lt_hi hfwq hx
    have key : (o.levelSize.width : ℚ) * pixelSizeX o = (o.fullSize.width : ℚ) := by
      unfold pixelSizeX
      field_simp
    have hq : localLeft o / pixelSizeX o < (o.levelSize.width : ℚ) := by
      rw [div_lt_iff₀ hpx, key]
      exact hll
    have hfl : ⌊localLeft o / pixelSizeX o⌋ < (o.levelSize.width : ℤ) :=
      Int.floor_lt.mpr (by exact_mod_cast hq)
    have hxs : windowXStart o < (o.levelSize.width : ℤ) :=
      max_lt (by exact_mod_cast Nat.pos_of_ne_zero hlw) hfl
    unfold windowXEnd
    exact lt_min hxs (lt_max_iff.mpr (Or.inl (lt_add_one _)))
  · have hfhq : (0 : ℚ) < (o.fullSize.height : ℚ) := by
      exact_mod_cast Nat.pos_of_ne_zero hfh
    have hlhq : (0 : ℚ) < (o.levelSize.height : ℚ) := by
      exact_mod_cast Nat.pos_of_ne_zero hlh
    have hpy : 0 < pixelSizeY o := div_pos hfhq hlhq
    have htt : localTop o < (o.fullSize.height : ℚ) := clamp_lt_hi hfhq hy
    have key : (o.levelSize.height : ℚ) * pixelSizeY o = (o.fullSize.height : ℚ) := by
      unfold pixelSizeY
      field_simp
    have hq : localTop o / pixelSizeY o < (o.levelSize.height : ℚ) := by
      rw [div_lt_iff₀ hpy, key]
      exact htt
    have hfl : ⌊localTop o / pixelSizeY o⌋ < (o.levelSize.height : ℤ) :=
      Int.floor_lt.mpr (by exact_mod_cast hq)
    have hys : windowYStart o < (o.levelSize.height : ℤ) :=
      max_lt (by exact_mod_cast Nat.pos_of_ne_zero hlh) hfl
    unfold windowYEnd
    exact lt_min hys (lt_max_iff.mpr (Or.inl (lt_add_one _)))

/-- Input with a zero-width and zero-height visible slice strictly inside
the cell. -/
def windowInteriorPoint : WindowOpts :=
  { viewportBounds := { left := 50, right := 50, top := 20, bottom := 20 },
    cellBounds := { left := 0, right := 100, top := 0, bottom := 100 },
    fullSize := { width := 100, height := 100 },
    levelSize := { width := 10, height := 10 } }

/-- Witness for the amended C2: a zero-area interior slice still yields a
non-empty window on both axes. -/
theorem windowNonempty_amended_witness :
    windowInteriorPoint.viewportBounds.left - windowInteriorPoint.cellBounds.left <
      (windowInteriorPoint.fullSize.width : ℚ) ∧
    windowInteriorPoint.viewportBounds.top - windowInteriorPoint.cellBounds.top <
      (windowInteriorPoint.fullSize.height : ℚ) ∧
    (windowXStart windowInteriorPoint < windowXEnd windowInteriorPoint ∧
     windowYStart windowInteriorPoint < windowYEnd windowInteriorPoint) :=
  ⟨by norm_num [windowInteriorPoint], by norm_num [windowInteriorPoint],
    windowNonempty_amended windowInteriorPoint (by decide) (by decide) (by decide) (by decide)
      (by norm_num [windowInteriorPoint]) (by norm_num [windowInteriorPoint])⟩

/-- Minimal fetched entry with a given coverage flag and tile shape, used
as concrete input to the validation step. -/
def sampleEntry (covers : Bool) (w h : ℕ) : GridDataEntry :=
  { sources := [], row := 0, col := 0, name := "", bounds := (0, 0, 0, 0),
    coversWholeCell := covers, source := emptySource, sourceIndex := 0,
    data := { data := [], width := w, height := h } }

/-- C4 counterexample: a batch holding two fully covering entries of
different shapes together with one partially covering entry passes the
completion validation without any thrown failure, contradicting the claim
that covering entries are always checked against each other. -/
theorem validation_counterexample :
    (sampleEntry true 2 2) ∈ [sampleEntry true 2 2, sampleEntry true 3 3, sampleEntry false 1 1] ∧
    (sampleEntry true 3 3) ∈ [sampleEntry true 2 2, sampleEntry true 3 3, sampleEntry false 1 1] ∧
    (sampleEntry true 2 2).coversWholeCell = true ∧
    (sampleEntry true 3 3).coversWholeCell = true ∧
    (sampleEntry true 2 2).data.width ≠ (sampleEntry true 3 3).data.width ∧
    refreshValidation [sampleEntry true 2 2, sampleEntry true 3 3, sampleEntry false 1 1] =
      .ok () :=
  ⟨List.mem_cons_self _ _, List.mem_cons_of_mem _ (List.mem_cons_self _ _), rfl, rfl,
    by decide, rfl⟩

/-- C4 amended: the completion validation runs only when the batch is
non-empty and every entry covers its whole cell; in that case a shape
mismatch with the first entry is exactly a thrown assertion, and any batch
holding a partially covering entry (or the empty batch) is not validated
at all. -/
theorem gridValidation_amended (gridData : List GridDataEntry) :
    ((gridData = [] ∨ ¬ (∀ e ∈ gridData, e.coversWholeCell = true)) →
      refreshValidation gridData = .ok ()) ∧
    (∀ first rest, gridData = first :: rest →
      (∀ e ∈ gridData, e.coversWholeCell = true) →
      ((∃ e ∈ gridData, e.data.width ≠ first.data.width ∨ e.data.height ≠ first.data.height) ↔
        refreshValidation gridData = .error "Grid data is not same shape.")) := by
  constructor
  · intro h
    rcases h with rfl | hnotall
    · rfl
    · unfold refreshValidation
      rw [if_neg]
      intro hcond
      exact hnotall (by simpa [List.all_eq_true] using hcond.2)
  · intro first rest hcons hall
    subst hcons
    unfold refreshValidation
    rw [if_pos ⟨by simp, by simpa [List.all_eq_true] using hall⟩]
    simp only [validateWidthHeight]
    split_ifs with hcheck
    · simp only [Except.map]
      constructor
      · rintro ⟨e, he, hne⟩
        have := (List.all_eq_true.mp hcheck) e he
        simp only [Bool.and_eq_true, decide_eq_true_eq] at this
        tauto
      · intro h
        exact absurd h (by simp)
    · simp only [Except.map]
      constructor
      · intro _
        trivial
      · intro _
        rw [List.all_eq_true] at hcheck
        push_neg at hcheck
        obtain ⟨e, he, hne⟩ := hcheck
        refine ⟨e, he, ?_⟩
        have hne2 : ¬ (e.data.width = first.data.width ∧ e.data.height = first.data.height) := by
          intro hboth
          simp [hboth.1, hboth.2] at hne
        tauto

/-- Witness for the amended C4: two covering entries of different shapes,
with no partial entry, do raise the thrown assertion. -/
theorem gridValidation_amended_witness :
    refreshValidation [sampleEntry true 2 2, sampleEntry true 3 3] =
      .error "Grid data is not same shape." :=
  ((gridValidation_amended _).2 (sampleEntry true 2 2) [sampleEntry true 3 3] rfl
      (by
        intro e he
        rcases List.mem_cons.mp he with rfl | he2
        · rfl
        · rcases List.mem_cons.mp he2 with rfl | he3
          · rfl
          · exact absurd he3 (List.not_mem_nil _))).mp
    ⟨sampleEntry true 3 3, List.mem_cons_of_mem _ (List.mem_cons_self _ _), by decide⟩

/-- A found first-qualifying index is a position inside the list. -/
lemma firstQualifying_lt_length {p : Dimensions → Bool} :
    ∀ {l : List Dimensions} {i : ℕ}, firstQualifying p l = some i → i < l.length := by
  intro l
  induction l with
  | nil => intro i h; simp [firstQualifying] at h
  | cons d rest ih =>
      intro i h
      simp only [firstQualifying] at h
      split_ifs at h with hd
      · cases h
        simp
      · cases hrec : firstQualifying p rest with
        | none => rw [hrec] at h; simp at h
        | some j =>
            rw [hrec] at h
            simp only [Option.map_some'] at h
            cases h
            have := ih hrec
            simp only [List.length_cons]
            omega

/-- Weakening the qualifying predicate can only move the first qualifying
index earlier. -/
lemma firstQualifying_mono {p q : Dimensions → Bool}
    (hpq : ∀ d, p d = true → q d = true) :
    ∀ {l : List Dimensions} {i : ℕ}, firstQualifying p l = some i →
      ∃ j, j ≤ i ∧ firstQualifying q l = some j := by
  intro l
  induction l with
  | nil => intro i h; simp [firstQualifying] at h
  | cons d rest ih =>
      intro i h
      simp only [firstQualifying] at h ⊢
      by_cases hq : q d = true
      · exact ⟨0, Nat.zero_le _, by rw [if_pos hq]⟩
      · have hp : ¬ p d = true := fun hp => hq (hpq d hp)
        rw [if_neg hp] at h
        rw [if_neg hq]
        cases hrec : firstQualifying p rest with
        | none => rw [hrec] at h; simp at h
        | some j =>
            rw [hrec] at h
            simp only [Option.map_some'] at h
            cases h
            obtain ⟨k, hk, hqk⟩ := ih hrec
            exact ⟨k + 1, by omega, by rw [hqk]; simp⟩

/-- A larger projected screen size qualifies every level a smaller one does. -/
lemma levelQualifies_mono {s1 s2 : ScreenSize}
    (hw : s1.width ≤ s2.width) (hh : s1.height ≤ s2.height) :
    ∀ d, levelQualifies s1 d = true → levelQualifies s2 d = true := by
  intro d h
  simp only [levelQualifies, decide_eq_true_eq] at h ⊢
  obtain ⟨hdw, hdh, hr⟩ := h
  have hdwq : (0 : ℚ) < (d.width : ℚ) := by exact_mod_cast Nat.pos_of_ne_zero hdw
  have hdhq : (0 : ℚ) < (d.height : ℚ) := by exact_mod_cast Nat.pos_of_ne_zero hdh
  refine ⟨hdw, hdh, le_trans hr (min_le_min ?_ ?_)⟩
  · exact (div_le_div_iff_of_pos_right hdwq).mpr hw
  · exact (div_le_div_iff_of_pos_right hdhq).mpr hh

/-- The selection loop is antitone in the screen size. -/
lemma pickFromDims_mono (dims : List Dimensions) {s1 s2 : ScreenSize}
    (hw : s1.width ≤ s2.width) (hh : s1.height ≤ s2.height) :
    pickFromDims dims s2 ≤ pickFromDims dims s1 := by
  unfold pickFromDims
  cases h1 : firstQualifying (levelQualifies s1) dims with
  | none =>
      simp only [Option.getD_none]
      cases h2 : firstQualifying (levelQualifies s2) dims with
      | none => simp
      | some j =>
          simp only [Option.getD_some]
          have := firstQualifying_lt_length h2
          omega
  | some i =>
      obtain ⟨j, hji, h2⟩ := firstQualifying_mono (levelQualifies_mono hw hh) h1
      rw [h2]
      simpa using hji

/-- C6: for a fixed grid, a viewport that projects the representative cell
at least as large on screen on both axes never selects a finer (larger)
resolution level. -/
theorem pickLevel_monotone (maxLevel : ℕ) (dims : List Dimensions) (prevLevel : ℕ)
    (s1 s2 : ScreenSize) (hw : s1.width ≤ s2.width) (hh : s1.height ≤ s2.height) :
    pickResolutionLevel maxLevel dims (some s2) prevLevel ≤
      pickResolutionLevel maxLevel dims (some s1) prevLevel := by
  simp only [pickResolutionLevel]
  split_ifs
  · exact le_refl 0
  · exact le_refl 0
  · exact pickFromDims_mono _ hw hh

/-- Witness for C6: zooming from a 300 by 300 to a 600 by 600 projected
cell moves the selected level from 1 to 0 for a two-level pyramid. -/
theorem pickLevel_monotone_witness :
    ({ width := 300, height := 300 } : ScreenSize).width ≤
      ({ width := 600, height := 600 } : ScreenSize).width ∧
    ({ width := 300, height := 300 } : ScreenSize).height ≤
      ({ width := 600, height := 600 } : ScreenSize).height ∧
    pickResolutionLevel 1 [{ width := 1000, height := 1000 }, { width := 500, height := 500 }]
        (some { width := 600, height := 600 }) 0 ≤
      pickResolutionLevel 1 [{ width := 1000, height := 1000 }, { width := 500, height := 500 }]
        (some { width := 300, height := 300 }) 0 :=
  ⟨by norm_num, by norm_num,
    pickLevel_monotone 1 _ 0 { width := 300, height := 300 } { width := 600, height := 600 }
      (by norm_num) (by norm_num)⟩

/-- C7: a pick with a resolved world coordinate is returned unchanged when
the cell size is still zero or when the floor-computed row/column falls
outside the declared grid, and is otherwise annotated with exactly
row = floor(y / (height + spacer)) and column = floor(x / (width + spacer))
together with the optional display labels. -/
theorem pickingInfo_spec (props : GridLayerProps) (fullWidth fullHeight : ℕ)
    (info : PickingInfo) (x y : ℚ) (hc : info.coordinate = some (x, y)) :
    ((fullWidth = 0 ∨ fullHeight = 0) →
      getPickingInfo props fullWidth fullHeight info = info) ∧
    (fullWidth ≠ 0 → fullHeight ≠ 0 →
      (((pickRow props fullHeight y < 0 ∨ pickColumn props fullWidth x < 0 ∨
         (props.rows : ℤ) ≤ pickRow props fullHeight y ∨
         (props.columns : ℤ) ≤ pickColumn props fullWidth x) →
        getPickingInfo props fullWidth fullHeight info = info) ∧
       (0 ≤ pickRow props fullHeight y → 0 ≤ pickColumn props fullWidth x →
        pickRow props fullHeight y < (props.rows : ℤ) →
        pickColumn props fullWidth x < (props.columns : ℤ) →
        getPickingInfo props fullWidth fullHeight info =
          { info with
            gridCoord := some (pickRow props fullHeight y, pickColumn props fullWidth x),
            gridLabels := some
              (props.rowLabels.bind fun ls => ls.get? (pickRow props fullHeight y).toNat,
               props.columnLabels.bind fun ls =>
                 ls.get? (pickColumn props fullWidth x).toNat) }))) := by
  refine ⟨?_, ?_⟩
  · intro h0
    simp only [getPickingInfo, hc]
    rw [if_pos h0]
  · intro hfw hfh
    have h0 : ¬ (fullWidth = 0 ∨ fullHeight = 0) := by tauto
    constructor
    · intro hout
      simp only [getPickingInfo, hc]
      rw [if_neg h0, if_pos hout]
    · intro h1 h2 h3 h4
      have hin : ¬ (pickRow props fullHeight y < 0 ∨ pickColumn props fullWidth x < 0 ∨
          (props.rows : ℤ) ≤ pickRow props fullHeight y ∨
          (props.columns : ℤ) ≤ pickColumn props fullWidth x) := by
        push_neg
        exact ⟨h1, h2, h3, h4⟩
      simp only [getPickingInfo, hc]
      rw [if_neg h0, if_neg hin]

/-- Props of the picking scenario: a 2 by 2 grid with spacer 10 and
display labels. -/
def pickProps : GridLayerProps :=
  { loaders := [], rows := 2, columns := 2, rowLabels := some ["A", "B"],
    columnLabels := some ["1", "2"], spacer := some 10, text := false,
    concurrency := none, selections := [] }

/-- Pick resolved to the world coordinate (130, 5). -/
def pickSample : PickingInfo :=
  { coordinate := some (130, 5), gridCoord := none, gridLabels := none }

/-- Witness for C7 at the spec scenario: cell 100 by 100, spacer 10, pick
at (130, 5) annotates row 0, column 1. -/
theorem pickingInfo_spec_witness :
    getPickingInfo pickProps 100 100 pickSample =
      { pickSample with
        gridCoord := some (0, 1),
        gridLabels := some (some "A", some "2") } := by
  have hr : pickRow pickProps 100 5 = 0 := by
    norm_num [pickRow, pickProps]
  have hcol : pickColumn pickProps 100 130 = 1 := by
    norm_num [pickColumn, pickProps]
  have h := ((pickingInfo_spec pickProps 100 100 pickSample 130 5 rfl).2
    (by decide) (by decide)).2
    (by rw [hr]) (by rw [hcol]; decide) (by rw [hr]; decide) (by rw [hcol]; decide)
  rw [h, hr, hcol]
  rfl

/-- C10: loading a visible cell with an empty channel-selection list
succeeds (given a cell with sources whose resolved level carries x/y
axes): the entry's buffer list is empty and its reported tile width and
height are both 0. -/
theorem loadEmptySelections_spec (cell : VisibleGridCell) (level : ℕ)
    (context : GridContext)
    (getRaster : ZarrPixelSource → List ℤ → Option RasterWindow → RasterTile)
    (hs : cell.loader.sources ≠ [])
    (hx : (cell.loader.sources.getD (min level (cell.loader.sources.length - 1))
        emptySource).labels.contains "x" = true)
    (hy : (cell.loader.sources.getD (min level (cell.loader.sources.length - 1))
        emptySource).labels.contains "y" = true) :
    ∃ entry, loadVisibleCell cell level [] context getRaster = .ok entry ∧
      entry.data.data = [] ∧ entry.data.width = 0 ∧ entry.data.height = 0 := by
  have hie : ¬ (cell.loader.sources.isEmpty = true) := by
    simp [List.isEmpty_iff, hs]
  obtain ⟨d, hdims⟩ : ∃ d, getSourceDimensions
      (cell.loader.sources.getD (min level (cell.loader.sources.length - 1)) emptySource) =
        .ok d := by
    unfold getSourceDimensions
    rw [if_pos ⟨hx, hy⟩]
    exact ⟨_, rfl⟩
  simp only [loadVisibleCell]
  rw [if_neg hie, hdims]
  exact ⟨_, rfl, rfl, rfl, rfl⟩

/-- Concrete single-source cell for the C10 witness. -/
def unitCell : VisibleGridCell :=
  { loader := { sources := [{ labels := ["x", "y"], shape := [4, 3], dtype := "Uint16" }],
                row := 0, col := 0, name := "c0" },
    cellBounds := { left := 0, right := 4, top := 0, bottom := 3 },
    viewportBounds := { left := 0, right := 4, top := 0, bottom := 3 } }

/-- Witness for C10: the concrete single-source cell loads an empty entry
of shape 0 by 0 under an empty selection list. -/
theorem loadEmptySelections_spec_witness :
    ∃ entry, loadVisibleCell unitCell 0 []
        { fullSize := { width := 4, height := 3 }, spacer := 0, visibleCells := [] }
        (fun _ _ _ => { data := [], width := 0, height := 0 }) = .ok entry ∧
      entry.data.data = [] ∧ entry.data.width = 0 ∧ entry.data.height = 0 :=
  loadEmptySelections_spec unitCell 0 _ _ (by decide) (by decide) (by decide)

/-- C8: under the raster contract (every source labels x and y axes),
building the context without a viewport yields no context exactly when no
loader carries a source or the base size read from the first such loader
is degenerate; and when a context is produced every loader with sources
appears as a visible cell whose visible bounds equal its full cell
bounds. -/
theorem buildContext_spec (props : GridLayerProps)
    (hlab : ∀ l ∈ props.loaders, ∀ s ∈ l.sources,
      s.labels.contains "x" = true ∧ s.labels.contains "y" = true) :
    (buildGridContext props none = .ok none ↔
      ((∀ l ∈ props.loaders, l.sources = []) ∨
       (∃ l, props.loaders.find? (fun loader => !loader.sources.isEmpty) = some l ∧
         ∃ d, getSourceDimensions (l.sources.getD 0 emptySource) = .ok d ∧
           (d.width = 0 ∨ d.height = 0)))) ∧
    (∀ ctx, buildGridContext props none = .ok (some ctx) →
      ctx.visibleCells.map (fun c => c.loader) =
        props.loaders.filter (fun l => !l.sources.isEmpty) ∧
      ∀ c ∈ ctx.visibleCells, c.viewportBounds = c.cellBounds) := by
  by_cases hemp : props.loaders.isEmpty = true
  · have hnil : props.loaders = [] := List.isEmpty_iff.mp hemp
    constructor
    · constructor
      · intro _
        exact Or.inl (by intro l hl; rw [hnil] at hl; cases hl)
      · intro _
        simp [buildGridContext, hemp]
    · intro ctx hctx
      simp [buildGridContext, hemp] at hctx
  · cases hfind : props.loaders.find? (fun loader => !loader.sources.isEmpty) with
    | none =>
        have hall : ∀ l ∈ props.loaders, l.sources = [] := by
          intro l hl
          have := List.find?_eq_none.mp hfind l hl
          simpa [List.isEmpty_iff] using this
        constructor
        · constructor
          · intro _
            exact Or.inl hall
          · intro _
            simp only [buildGridContext]
            rw [if_neg hemp, hfind]
        · intro ctx hctx
          simp only [buildGridContext] at hctx
          rw [if_neg hemp, hfind] at hctx
          cases hctx
    | some base =>
        have hmem : base ∈ props.loaders := List.mem_of_find?_eq_some hfind
        have hbase := List.find?_some hfind
        have hneq : base.sources ≠ [] := by
          simpa [List.isEmpty_iff] using hbase
        have hsrcmem : base.sources.getD 0 emptySource ∈ base.sources := by
          cases hbs : base.sources with
          | nil => exact absurd hbs hneq
          | cons s rest => simp
        obtain ⟨hx, hy⟩ := hlab base hmem _ hsrcmem
        obtain ⟨d, hd⟩ : ∃ d, getSourceDimensions (base.sources.getD 0 emptySource) = .ok d :=
          ⟨_, by unfold getSourceDimensions; rw [if_pos ⟨hx, hy⟩]⟩
        have hbuild : buildGridContext props none =
            if d.width = 0 ∨ d.height = 0 then Except.ok none
            else Except.ok (some
              { fullSize := d, spacer := props.spacer.getD 0,
                visibleCells := getAllGridCells props.loaders d (props.spacer.getD 0) }) := by
          simp only [buildGridContext]
          rw [if_neg hemp, hfind]
          simp only [hd]
        by_cases hdeg : d.width = 0 ∨ d.height = 0
        · rw [hbuild, if_pos hdeg]
          constructor
          · exact ⟨fun _ => Or.inr ⟨base, rfl, d, hd, hdeg⟩, fun _ => rfl⟩
          · intro ctx hctx
            cases hctx
        · rw [hbuild, if_neg hdeg]
          constructor
          · constructor
            · intro hok
              cases hok
            · intro hcond
              rcases hcond with hall | ⟨l, hfindl, d', hd', hdeg'⟩
              · exact absurd (hall base hmem) hneq
              · cases hfindl
                rw [hd] at hd'
                cases hd'
                exact absurd hdeg' hdeg
          · intro ctx hctx
            cases hctx
            constructor
            · rw [getAllGridCells, if_neg hdeg]
              rw [List.map_map]
              have hco : ((fun c => VisibleGridCell.loader c) ∘ fun loader =>
                  ({ loader := loader,
                     cellBounds := getCellBounds loader (d.width : ℚ) (d.height : ℚ)
                       (props.spacer.getD 0),
                     viewportBounds := getCellBounds loader (d.width : ℚ) (d.height : ℚ)
                       (props.spacer.getD 0) } : VisibleGridCell)) = id := by
                funext l
                rfl
              rw [hco, List.map_id]
            · intro c hc
              rw [getAllGridCells, if_neg hdeg] at hc
              obtain ⟨l, _, hcl⟩ := List.mem_map.mp hc
              rw [← hcl]

/-- Two-cell grid: one loader with a 4 by 3 source, one loader with no
sources. -/
def gridPropsW : GridLayerProps :=
  { loaders := [{ sources := [{ labels := ["x", "y"], shape := [4, 3], dtype := "Uint16" }],
                  row := 0, col := 0, name := "a" },
                { sources := [], row := 0, col := 1, name := "b" }],
    rows := 1, columns := 2, rowLabels := none, columnLabels := none,
    spacer := some 5, text := false, concurrency := some 10, selections := [] }

/-- Witness for C8 at the concrete two-cell grid. -/
theorem buildContext_spec_witness :
    (buildGridContext gridPropsW none = .ok none ↔
      ((∀ l ∈ gridPropsW.loaders, l.sources = []) ∨
       (∃ l, gridPropsW.loaders.find? (fun loader => !loader.sources.isEmpty) = some l ∧
         ∃ d, getSourceDimensions (l.sources.getD 0 emptySource) = .ok d ∧
           (d.width = 0 ∨ d.height = 0)))) ∧
    (∀ ctx, buildGridContext gridPropsW none = .ok (some ctx) →
      ctx.visibleCells.map (fun c => c.loader) =
        gridPropsW.loaders.filter (fun l => !l.sources.isEmpty) ∧
      ∀ c ∈ ctx.visibleCells, c.viewportBounds = c.cellBounds) :=
  buildContext_spec gridPropsW (by decide)
